import Mathlib

/-!
Verification of the President-Sim resolution engine (`server.js`).

The simulation core is embedded shallowly: the stat vector is a record of
integers, action deltas are records of optional integers (a missing key in
the JS delta object is `none`), and each engine function is translated
directly from its JS counterpart.
-/

namespace PresidentSim

/-- The per-session stat vector (`Stats` row / in-memory stats object):
five bounded axes, the unbounded `chaos` gauge, and two counters. -/
structure StatVector where
  approval : Int
  stability : Int
  economy : Int
  justice : Int
  power : Int
  chaos : Int
  laws : Int
  crises : Int
deriving Repr, DecidableEq

/-- An action delta object: a partial mapping from stat keys to signed
adjustments. A field that is absent from the JS object is `none`. -/
structure Delta where
  approval : Option Int
  stability : Option Int
  economy : Option Int
  justice : Option Int
  power : Option Int
  chaos : Option Int
  laws : Option Int
  crises : Option Int
deriving Repr, DecidableEq

/-- The empty delta object `\x7b\x7d`. -/
def emptyDelta : Delta := ⟨none, none, none, none, none, none, none, none⟩

/-- `DEFAULT_STATS` from server.js. -/
def DEFAULT_STATS : StatVector := ⟨50, 50, 50, 50, 50, 0, 0, 0⟩

/-- The data-model invariant of a stat vector: bounded axes in [0,100],
chaos and the counters nonnegative. -/
def InRange (s : StatVector) : Prop :=
  0 ≤ s.approval ∧ s.approval ≤ 100 ∧
  0 ≤ s.stability ∧ s.stability ≤ 100 ∧
  0 ≤ s.economy ∧ s.economy ≤ 100 ∧
  0 ≤ s.justice ∧ s.justice ≤ 100 ∧
  0 ≤ s.power ∧ s.power ≤ 100 ∧
  0 ≤ s.chaos ∧ 0 ≤ s.laws ∧ 0 ≤ s.crises

instance (s : StatVector) : Decidable (InRange s) := by
  unfold InRange; infer_instance

/-- One bounded axis of `applyDeltas`: if the delta key is present the axis
is updated as `Math.max(0, Math.min(100, s[key] + deltas[key]))`, otherwise
it is left unchanged. -/
def applyBounded (cur : Int) (d : Option Int) : Int :=
  match d with
  | none => cur
  | some dv => max 0 (min 100 (cur + dv))

/-- `applyDeltas(stats, deltas)` from server.js: clamp the five bounded
axes to [0,100], floor `chaos` at 0 with no upper cap, and add to the
`laws` / `crises` counters; absent keys leave fields unchanged. -/
def applyDeltas (stats : StatVector) (deltas : Delta) : StatVector :=
  ⟨applyBounded stats.approval deltas.approval,
   applyBounded stats.stability deltas.stability,
   applyBounded stats.economy deltas.economy,
   applyBounded stats.justice deltas.justice,
   applyBounded stats.power deltas.power,
   (match deltas.chaos with
    | none => stats.chaos
    | some dc => max 0 (stats.chaos + dc)),
   (match deltas.laws with
    | none => stats.laws
    | some dl => stats.laws + dl),
   (match deltas.crises with
    | none => stats.crises
    | some dc => stats.crises + dc)⟩

/-- The reasons `checkGameOver` can report. -/
inductive GameOverReason where
  | chaosExceeded
  | stabilityCollapsed
  | approvalVanished
deriving Repr, DecidableEq

/-- Result object of `checkGameOver`: the JS object has no `reason` field
when the game is not over, modelled as `none`. -/
structure GameOverResult where
  gameOver : Bool
  reason : Option GameOverReason
deriving Repr, DecidableEq

/-- `checkGameOver(stats, chaosThreshold)` from server.js. -/
def checkGameOver (stats : StatVector) (chaosThreshold : Int) : GameOverResult :=
  if chaosThreshold ≤ stats.chaos then ⟨true, some .chaosExceeded⟩
  else if stats.stability ≤ 0 then ⟨true, some .stabilityCollapsed⟩
  else if stats.approval ≤ 0 then ⟨true, some .approvalVanished⟩
  else ⟨false, none⟩

/-- `Math.round(k / 2)` for an integer `k`: JavaScript rounds halves toward
positive infinity, so the result is `⌊(k + 1) / 2⌋`. -/
def jsRoundHalf (k : Int) : Int := Int.fdiv (k + 1) 2

/-- Result object of `checkRebellionChance`: the JS object has no
`intensity` field when no rebellion fires, modelled as `none`. -/
structure RebellionResult where
  rebellion : Bool
  intensity : Option Int
deriving Repr, DecidableEq

/-- `checkRebellionChance(stats)` from server.js. -/
def checkRebellionChance (stats : StatVector) : RebellionResult :=
  if 65 < stats.chaos ∨ stats.stability < 20 then
    ⟨true, some (min 100 (jsRoundHalf (stats.chaos + (50 - stats.stability))))⟩
  else if stats.approval < 15 then
    ⟨true, some (max 10 (40 - stats.approval))⟩
  else ⟨false, none⟩

/-! ## Delta tables (`LAW_DELTAS`, `CRISIS_DELTAS`, ...), association lists
keyed by action identifier; field order of `Delta` is
approval, stability, economy, justice, power, chaos, laws, crises. -/

/-- `LAW_DELTAS` from server.js. -/
def LAW_DELTAS : List (String × Delta) :=
  [("tax_cut", ⟨some 5, some (-2), some 8, none, some 0, some (-1), none, none⟩),
   ("emergency_rule", ⟨some (-10), some 10, none, some (-8), some 12, some 5, none, none⟩),
   ("welfare_boost", ⟨some 8, none, some (-6), some 5, some 0, some (-2), none, none⟩),
   ("police_reform", ⟨some (-3), some 2, none, some 12, some (-2), some (-1), none, none⟩)]

/-- `CRISIS_DELTAS` from server.js. -/
def CRISIS_DELTAS : List (String × Delta) :=
  [("pandemic", ⟨some (-6), some (-10), some (-12), some 0, some 5, some 8, none, none⟩),
   ("economic_shock", ⟨some (-8), some (-6), some (-15), some 0, some 3, some 6, none, none⟩),
   ("diplomatic_row", ⟨some (-4), some (-3), some (-2), none, some (-1), some 2, none, none⟩)]

/-- `DIPLOMACY_DELTAS` from server.js. -/
def DIPLOMACY_DELTAS : List (String × Delta) :=
  [("treaty", ⟨some 2, some 3, some 2, none, none, some (-1), none, none⟩),
   ("trade", ⟨some 1, some 1, some 6, none, none, none, none, none⟩),
   ("rivalry", ⟨some (-3), some (-4), none, none, none, some 4, none, none⟩)]

/-- `REBELLION_DELTAS` from server.js. -/
def REBELLION_DELTAS : List (String × Delta) :=
  [("negotiate", ⟨some 5, some 6, none, none, some (-5), some (-8), none, none⟩),
   ("suppress", ⟨some (-12), some 10, none, none, some 8, some 10, none, none⟩),
   ("appease", ⟨some 3, some 4, some (-4), none, none, some (-5), none, none⟩)]

/-- `COSMIC_DELTAS` from server.js. -/
def COSMIC_DELTAS : List (String × Delta) :=
  [("probe", ⟨some (-2), none, none, none, some 3, some 10, none, none⟩),
   ("entreat", ⟨some 4, some 2, none, none, none, some (-6), none, none⟩),
   ("distort", ⟨some (-20), some (-15), none, none, some 20, some 25, none, none⟩)]

/-- Fallback delta `\x7b approval: 0 \x7d` used by the law, diplomacy and
rebellion handlers when the action key is not in the table. -/
def approvalZeroFallback : Delta := ⟨some 0, none, none, none, none, none, none, none⟩

/-- Fallback delta `\x7b approval: -2 \x7d` of the crisis handler. -/
def crisisFallback : Delta := ⟨some (-2), none, none, none, none, none, none, none⟩

/-- Fallback delta `\x7b chaos: +5 \x7d` of the cosmic handler. -/
def cosmicFallback : Delta := ⟨none, none, none, none, none, some 5, none, none⟩

/-- Delta chosen by `POST /laws/enforce`: table lookup with fallback, then
`deltas.laws = 1`. -/
def lawEnforceDelta (lawKey : String) : Delta :=
  let d := (LAW_DELTAS.lookup lawKey).getD approvalZeroFallback
  ⟨d.approval, d.stability, d.economy, d.justice, d.power, d.chaos, some 1, d.crises⟩

/-- One axis of the crisis handler merge
`merged[k] = (merged[k] || 0) + methodMod[k]` (over the keys of the method
modifier; for integer values JS `x || 0` is `x` when defined, since a
present 0 also yields 0). -/
def mergeAxis (b m : Option Int) : Option Int :=
  match m with
  | none => b
  | some mv => some (b.getD 0 + mv)

/-- Axis-wise merge of a crisis base delta with a method modifier. -/
def mergeDelta (b m : Delta) : Delta :=
  ⟨mergeAxis b.approval m.approval, mergeAxis b.stability m.stability,
   mergeAxis b.economy m.economy, mergeAxis b.justice m.justice,
   mergeAxis b.power m.power, mergeAxis b.chaos m.chaos,
   mergeAxis b.laws m.laws, mergeAxis b.crises m.crises⟩

/-- Method modifier table of `POST /crises/resolve`. -/
def methodMod (method : String) : Delta :=
  if method = "bold" then ⟨some (-3), none, none, none, some 5, some 4, none, none⟩
  else if method = "measured" then ⟨some 2, some 4, some (-3), none, none, none, none, none⟩
  else if method = "ignore" then ⟨some (-10), some (-12), none, none, none, some 10, none, none⟩
  else emptyDelta

/-- Delta applied by `POST /crises/resolve`: base table lookup with
fallback, merged with the method modifier, then `merged.crises = 1`. -/
def crisisResolveDelta (crisisKey method : String) : Delta :=
  let base := (CRISIS_DELTAS.lookup crisisKey).getD crisisFallback
  let merged := mergeDelta base (methodMod method)
  ⟨merged.approval, merged.stability, merged.economy, merged.justice,
   merged.power, merged.chaos, merged.laws, some 1⟩

/-- Delta applied by `POST /diplomacy/action`. -/
def diplomacyDelta (actionKey : String) : Delta :=
  (DIPLOMACY_DELTAS.lookup actionKey).getD approvalZeroFallback

/-- Delta applied by `POST /rebellion/act`. -/
def rebellionDelta (act : String) : Delta :=
  (REBELLION_DELTAS.lookup act).getD approvalZeroFallback

/-- Delta applied by `POST /cosmic/act`. -/
def cosmicDelta (actKey : String) : Delta :=
  (COSMIC_DELTAS.lookup actKey).getD cosmicFallback

/-- The stats-update step of the `POST /laws/enforce` handler: the only
error path is a missing session row (HTTP 404); a found stats row is
processed unconditionally, with no validation of its field ranges. -/
def lawsEnforce (statsRow : Option StatVector) (lawKey : String) :
    Except String StatVector :=
  match statsRow with
  | none => .error "session not found"
  | some s => .ok (applyDeltas s (lawEnforceDelta lawKey))

/-! ## Achievement evaluation -/

/-- One entry of `ACHIEVEMENT_RULES`: a key, a predicate on the stat
vector, and a description. -/
structure AchRule where
  key : String
  condition : StatVector → Bool
  description : String

/-- `ACHIEVEMENT_RULES` from server.js. -/
def ACHIEVEMENT_RULES : List AchRule :=
  [⟨"stable_mandate", fun s => decide (90 ≤ s.stability), "Stability >= 90"⟩,
   ⟨"economic_wizard", fun s => decide (90 ≤ s.economy), "Economy >= 90"⟩,
   ⟨"chaos_master", fun s => decide (80 ≤ s.chaos), "Chaos >= 80"⟩,
   ⟨"iron_fist", fun s => decide (90 ≤ s.power ∧ s.justice < 30), "Power >= 90 while Justice < 30"⟩]

/-- `evaluateAchievements(sessionId, stats)` from server.js, with the
session's stored achievement keys (`SELECT key FROM Achievement WHERE
sessionId = ?`, read once before the loop) made an explicit argument;
returns the keys of the rules that fire and are inserted. -/
def evaluateAchievements (existing : List String) (stats : StatVector) : List String :=
  (ACHIEVEMENT_RULES.filter fun r => !(existing.contains r.key) && r.condition stats).map
    fun r => r.key

/-- Effect of one rule-table evaluation on the session's achievement key
store: the fired keys are inserted after the existing rows. -/
def evalStep (store : List String) (stats : StatVector) : List String :=
  store ++ evaluateAchievements store stats

/-- Achievement-store and stats effect of the `POST /cosmic/act` handler:
apply the cosmic delta, then for `actKey === 'distort'` insert the
`distorted_realm` achievement unconditionally, then run the rule-table
evaluation. -/
def cosmicActStep (st : List String × StatVector) (actKey : String) :
    List String × StatVector :=
  let newStats := applyDeltas st.2 (cosmicDelta actKey)
  let store1 := if actKey = "distort" then st.1 ++ ["distorted_realm"] else st.1
  (store1 ++ evaluateAchievements store1 newStats, newStats)

/-- Achievement-store effect of `POST /achievement/unlock`: the row is
inserted unconditionally. -/
def manualUnlockStep (store : List String) (key : String) : List String :=
  store ++ [key]

/-! ## Archive glyph encoder (`compressToGlyphs`) -/

/-- A JSON-serializable payload value; object fields are kept in insertion
order, as `JSON.stringify` preserves it. -/
inductive Json where
  | null
  | bool (b : Bool)
  | num (n : Int)
  | str (s : String)
  | arr (items : List Json)
  | obj (fields : List (String × Json))

/-- JSON string escaping for the quote and backslash characters. -/
def escapeChar (c : Char) : String :=
  if c = '"' then "\\\"" else if c = '\\' then "\\\\" else String.singleton c

/-- Escape a JSON string body. -/
def escapeString (s : String) : String := String.join (s.data.map escapeChar)

mutual

/-- `JSON.stringify` over the `Json` payload model. -/
def Json.stringify : Json → String
  | .null => "null"
  | .bool true => "true"
  | .bool false => "false"
  | .num n => toString n
  | .str s => "\"" ++ escapeString s ++ "\""
  | .arr items => "[" ++ stringifyItems items ++ "]"
  | .obj fields => "\x7b" ++ stringifyFields fields ++ "\x7d"

/-- Comma-separated serialization of a JSON array body. -/
def stringifyItems : List Json → String
  | [] => ""
  | [j] => j.stringify
  | j :: rest => j.stringify ++ "," ++ stringifyItems rest

/-- Comma-separated serialization of a JSON object body. -/
def stringifyFields : List (String × Json) → String
  | [] => ""
  | [(k, v)] => "\"" ++ escapeString k ++ "\":" ++ v.stringify
  | (k, v) :: rest =>
      "\"" ++ escapeString k ++ "\":" ++ v.stringify ++ "," ++ stringifyFields rest

end

/-- The base64 alphabet. -/
def base64Table : List Char :=
  "ABCDEFGHIJKLMNOPQRSTUVWXYZabcdefghijklmnopqrstuvwxyz0123456789+/".data

/-- The base64 character of a 6-bit group. -/
def base64Char (n : Nat) : Char := base64Table.getD n 'A'

/-- Standard base64 encoding of a byte list (`Buffer.toString('base64')`). -/
def base64Encode : List UInt8 → String
  | [] => ""
  | [b1] =>
      let n := b1.toNat * 16
      String.mk [base64Char (n / 64), base64Char (n % 64)] ++ "=="
  | [b1, b2] =>
      let n := (b1.toNat * 256 + b2.toNat) * 4
      String.mk [base64Char (n / 4096), base64Char (n / 64 % 64), base64Char (n % 64)] ++ "="
  | b1 :: b2 :: b3 :: rest =>
      let n := b1.toNat * 65536 + b2.toNat * 256 + b3.toNat
      String.mk [base64Char (n / 262144), base64Char (n / 4096 % 64),
                 base64Char (n / 64 % 64), base64Char (n % 64)] ++ base64Encode rest

/-- The fixed ornamental glyph alphabet of server.js (the `glyphSet`
string literal, as its file bytes decode under UTF-8; 87 UTF-16 units). -/
def glyphSet : List Char :=
  ("‚ćü‚ú¶‚úß‚úĶ" ++
   "‚ú∂‚ú∑‚úł‚úĻ" ++
   "‚úļ‚úľ‚úĹ‚úĺ" ++
   "‚ėÖ‚ėľ‚ėĮ‚ėł" ++
   "‚úļ‚Ěā‚ĚÉ‚ĚĀ" ++
   "‚úŅ‚ėô‚ôÜ‚ôĒ" ++
   "‚ôē‚ôĖ‚ôó‚ôė" ++
   "‚ôô").data

/-- `compressToGlyphs(obj)` from server.js. The zlib `deflateSync` call is
an external library function, passed in as `deflate : String → List UInt8`
(the deterministic compression of the UTF-8 bytes of the JSON string); the
rest of the pipeline — stringify, base64, and the per-character map
`glyphSet[charCode % glyphSet.length]` — is translated directly. -/
def compressToGlyphs (deflate : String → List UInt8) (obj : Json) : String :=
  let json := Json.stringify obj
  let b64 := base64Encode (deflate json)
  String.mk (b64.data.map fun c => glyphSet.getD (c.toNat % glyphSet.length) 'A')

/-- Concrete sample payload for exercising the glyph encoder. -/
def samplePayload : Json :=
  Json.obj [("sessionId", Json.str "s1"), ("chaos", Json.num 12),
            ("laws", Json.arr [Json.str "tax_cut", Json.null])]

/-- Concrete deterministic byte function standing in for the external
`zlib.deflateSync` when the encoder is exercised on a sample input. -/
def deflateStub (s : String) : List UInt8 :=
  s.data.map fun c => UInt8.ofNat (c.toNat % 256)

/-! ## Helper lemmas -/

theorem applyBounded_mem (cur : Int) (d : Option Int) (h0 : 0 ≤ cur) (h1 : cur ≤ 100) :
    0 ≤ applyBounded cur d ∧ applyBounded cur d ≤ 100 := by
  cases d with
  | none => exact ⟨h0, h1⟩
  | some dv =>
      refine ⟨le_max_left _ _, ?_⟩
      exact max_le (by norm_num) (min_le_left _ _)

theorem evaluateAchievements_nodup (store : List String) (v : StatVector) :
    (evaluateAchievements store v).Nodup := by
  have hk : (ACHIEVEMENT_RULES.map fun r => r.key).Nodup := by decide
  have hsub : ((ACHIEVEMENT_RULES.filter fun r =>
      !(store.contains r.key) && r.condition v).map fun r => r.key).Sublist
      (ACHIEVEMENT_RULES.map fun r => r.key) :=
    (List.filter_sublist _).map _
  exact hk.sublist hsub

theorem mem_evaluateAchievements (u : List String) (v : StatVector) (k : String) :
    k ∈ evaluateAchievements u v ↔
      ∃ r, r ∈ ACHIEVEMENT_RULES ∧ r.key = k ∧ k ∉ u ∧ r.condition v = true := by
  unfold evaluateAchievements
  constructor
  · intro h
    obtain ⟨r, hr, rfl⟩ := List.mem_map.mp h
    obtain ⟨hmem, hp⟩ := List.mem_filter.mp hr
    simp at hp
    exact ⟨r, hmem, rfl, hp.1, hp.2⟩
  · rintro ⟨r, hmem, rfl, hu, hcond⟩
    refine List.mem_map.mpr ⟨r, List.mem_filter.mpr ⟨hmem, ?_⟩, rfl⟩
    simp [hu, hcond]

theorem evaluateAchievements_not_mem_store (store : List String) (v : StatVector)
    (k : String) (hmem : k ∈ evaluateAchievements store v) : k ∉ store := by
  unfold evaluateAchievements at hmem
  obtain ⟨r, hr, rfl⟩ := List.mem_map.mp hmem
  have hp := (List.mem_filter.mp hr).2
  simp at hp
  exact hp.1

/-! ## Claim theorems -/

/-- C1: for every in-range stat vector and every delta, each bounded axis
(approval, stability, economy, justice, power) of `applyDeltas` lies in
[0, 100], and the resulting chaos is nonnegative and exactly
`max 0 (chaos + delta)` — floored at 0, with no upper cap applied. -/
theorem applyDeltas_bounds (v : StatVector) (d : Delta) (hv : InRange v) :
    (0 ≤ (applyDeltas v d).approval ∧ (applyDeltas v d).approval ≤ 100) ∧
    (0 ≤ (applyDeltas v d).stability ∧ (applyDeltas v d).stability ≤ 100) ∧
    (0 ≤ (applyDeltas v d).economy ∧ (applyDeltas v d).economy ≤ 100) ∧
    (0 ≤ (applyDeltas v d).justice ∧ (applyDeltas v d).justice ≤ 100) ∧
    (0 ≤ (applyDeltas v d).power ∧ (applyDeltas v d).power ≤ 100) ∧
    0 ≤ (applyDeltas v d).chaos ∧
    (applyDeltas v d).chaos = max 0 (v.chaos + d.chaos.getD 0) := by
  obtain ⟨ha0, ha1, hs0, hs1, he0, he1, hj0, hj1, hp0, hp1, hc, hl, hcr⟩ := hv
  refine ⟨applyBounded_mem _ _ ha0 ha1, applyBounded_mem _ _ hs0 hs1,
    applyBounded_mem _ _ he0 he1, applyBounded_mem _ _ hj0 hj1,
    applyBounded_mem _ _ hp0 hp1, ?_, ?_⟩
  · show (0 : Int) ≤ (match d.chaos with
      | none => v.chaos
      | some dc => max 0 (v.chaos + dc))
    cases d.chaos with
    | none => exact hc
    | some dc => exact le_max_left _ _
  · show (match d.chaos with
      | none => v.chaos
      | some dc => max 0 (v.chaos + dc)) = max 0 (v.chaos + d.chaos.getD 0)
    cases d.chaos with
    | none => rw [Option.getD_none, add_zero, max_eq_right hc]
    | some dc => rw [Option.getD_some]

/-- C1 witness: the default stats with a `chaos: +150` delta; the clamped
axes stay in range and chaos becomes `max 0 (0 + 150) = 150`, above 100. -/
theorem applyDeltas_bounds_witness :
    (0 ≤ (applyDeltas DEFAULT_STATS ⟨none, none, none, none, none, some 150, none, none⟩).approval ∧
      (applyDeltas DEFAULT_STATS ⟨none, none, none, none, none, some 150, none, none⟩).approval ≤ 100) ∧
    (0 ≤ (applyDeltas DEFAULT_STATS ⟨none, none, none, none, none, some 150, none, none⟩).stability ∧
      (applyDeltas DEFAULT_STATS ⟨none, none, none, none, none, some 150, none, none⟩).stability ≤ 100) ∧
    (0 ≤ (applyDeltas DEFAULT_STATS ⟨none, none, none, none, none, some 150, none, none⟩).economy ∧
      (applyDeltas DEFAULT_STATS ⟨none, none, none, none, none, some 150, none, none⟩).economy ≤ 100) ∧
    (0 ≤ (applyDeltas DEFAULT_STATS ⟨none, none, none, none, none, some 150, none, none⟩).justice ∧
      (applyDeltas DEFAULT_STATS ⟨none, none, none, none, none, some 150, none, none⟩).justice ≤ 100) ∧
    (0 ≤ (applyDeltas DEFAULT_STATS ⟨none, none, none, none, none, some 150, none, none⟩).power ∧
      (applyDeltas DEFAULT_STATS ⟨none, none, none, none, none, some 150, none, none⟩).power ≤ 100) ∧
    0 ≤ (applyDeltas DEFAULT_STATS ⟨none, none, none, none, none, some 150, none, none⟩).chaos ∧
    (applyDeltas DEFAULT_STATS ⟨none, none, none, none, none, some 150, none, none⟩).chaos =
      max 0 (DEFAULT_STATS.chaos + (some (150 : Int)).getD 0) :=
  applyDeltas_bounds DEFAULT_STATS ⟨none, none, none, none, none, some 150, none, none⟩
    (by decide)

/-- C2: `checkGameOver` fires exactly when chaos reaches the threshold, or
stability ≤ 0, or approval ≤ 0, and the reported reason is the first
matching one in that order; with chaos over threshold and stability ≤ 0
simultaneously, `chaosExceeded` is reported. -/
theorem checkGameOver_spec (v : StatVector) (t : Int) :
    ((checkGameOver v t).gameOver = true ↔
      t ≤ v.chaos ∨ v.stability ≤ 0 ∨ v.approval ≤ 0) ∧
    (t ≤ v.chaos → checkGameOver v t = ⟨true, some .chaosExceeded⟩) ∧
    (v.chaos < t → v.stability ≤ 0 →
      checkGameOver v t = ⟨true, some .stabilityCollapsed⟩) ∧
    (v.chaos < t → 0 < v.stability → v.approval ≤ 0 →
      checkGameOver v t = ⟨true, some .approvalVanished⟩) ∧
    (v.chaos < t → 0 < v.stability → 0 < v.approval →
      checkGameOver v t = ⟨false, none⟩) := by
  refine ⟨?_, ?_, ?_, ?_, ?_⟩
  · unfold checkGameOver
    split_ifs with h1 h2 h3 <;> simp <;> omega
  · intro h1
    unfold checkGameOver
    rw [if_pos h1]
  · intro h1 h2
    unfold checkGameOver
    rw [if_neg (by omega), if_pos h2]
  · intro h1 h2 h3
    unfold checkGameOver
    rw [if_neg (by omega), if_neg (by omega), if_pos h3]
  · intro h1 h2 h3
    unfold checkGameOver
    rw [if_neg (by omega), if_neg (by omega), if_neg (by omega)]

/-- C2 witness: chaos 120 over threshold 100 and stability 0 collapsed
simultaneously; the chaos-exceeded reason wins. -/
theorem checkGameOver_spec_witness :
    checkGameOver ⟨50, 0, 50, 50, 50, 120, 0, 0⟩ 100 = ⟨true, some .chaosExceeded⟩ :=
  (checkGameOver_spec ⟨50, 0, 50, 50, 50, 120, 0, 0⟩ 100).2.1 (by decide)

/-- C8: `applyDeltas` is total (it is a function) and leaves every vector
field whose key is absent from the delta unchanged. -/
theorem applyDeltas_frame (v : StatVector) (d : Delta) :
    (d.approval = none → (applyDeltas v d).approval = v.approval) ∧
    (d.stability = none → (applyDeltas v d).stability = v.stability) ∧
    (d.economy = none → (applyDeltas v d).economy = v.economy) ∧
    (d.justice = none → (applyDeltas v d).justice = v.justice) ∧
    (d.power = none → (applyDeltas v d).power = v.power) ∧
    (d.chaos = none → (applyDeltas v d).chaos = v.chaos) ∧
    (d.laws = none → (applyDeltas v d).laws = v.laws) ∧
    (d.crises = none → (applyDeltas v d).crises = v.crises) := by
  refine ⟨?_, ?_, ?_, ?_, ?_, ?_, ?_, ?_⟩ <;> intro h <;>
    simp [applyDeltas, applyBounded, h]

/-- C8 witness: a delta touching only approval and justice leaves the
other six fields of the default stats unchanged. -/
theorem applyDeltas_frame_witness :
    (applyDeltas DEFAULT_STATS ⟨some 5, none, none, some (-3), none, none, none, none⟩).stability =
      DEFAULT_STATS.stability ∧
    (applyDeltas DEFAULT_STATS ⟨some 5, none, none, some (-3), none, none, none, none⟩).economy =
      DEFAULT_STATS.economy ∧
    (applyDeltas DEFAULT_STATS ⟨some 5, none, none, some (-3), none, none, none, none⟩).power =
      DEFAULT_STATS.power ∧
    (applyDeltas DEFAULT_STATS ⟨some 5, none, none, some (-3), none, none, none, none⟩).chaos =
      DEFAULT_STATS.chaos ∧
    (applyDeltas DEFAULT_STATS ⟨some 5, none, none, some (-3), none, none, none, none⟩).laws =
      DEFAULT_STATS.laws ∧
    (applyDeltas DEFAULT_STATS ⟨some 5, none, none, some (-3), none, none, none, none⟩).crises =
      DEFAULT_STATS.crises :=
  ⟨(applyDeltas_frame DEFAULT_STATS _).2.1 rfl,
   (applyDeltas_frame DEFAULT_STATS _).2.2.1 rfl,
   (applyDeltas_frame DEFAULT_STATS _).2.2.2.2.1 rfl,
   (applyDeltas_frame DEFAULT_STATS _).2.2.2.2.2.1 rfl,
   (applyDeltas_frame DEFAULT_STATS _).2.2.2.2.2.2.1 rfl,
   (applyDeltas_frame DEFAULT_STATS _).2.2.2.2.2.2.2 rfl⟩

/-- C10: when the chaos/stability trigger and the approval trigger hold
simultaneously, `checkRebellionChance` returns the chaos/stability
intensity `min 100 (round((chaos + (50 - stability)) / 2))`, never the
approval formula: the first branch takes priority. -/
theorem checkRebellionChance_priority (v : StatVector)
    (h1 : 65 < v.chaos ∨ v.stability < 20) (_h2 : v.approval < 15) :
    checkRebellionChance v =
      ⟨true, some (min 100 (jsRoundHalf (v.chaos + (50 - v.stability))))⟩ := by
  unfold checkRebellionChance
  rw [if_pos h1]

/-- C10 witness: approval 10 and chaos 70 satisfy both triggers; the
result is the chaos/stability intensity 35, not `max 10 (40 - 10) = 30`. -/
theorem checkRebellionChance_priority_witness :
    checkRebellionChance ⟨10, 50, 50, 50, 50, 70, 0, 0⟩ =
      ⟨true, some (min 100 (jsRoundHalf (70 + (50 - 50))))⟩ :=
  checkRebellionChance_priority ⟨10, 50, 50, 50, 50, 70, 0, 0⟩
    (Or.inl (by decide)) (by decide)

/-- C3 counterexample: at approval 10, stability 50, chaos 70 the approval
trigger `approval < 15` holds, but the reported intensity is 35 — the
chaos/stability formula — not `max 10 (40 - 10) = 30` as the claim's
approval clause states. -/
theorem checkRebellionChance_claim_cex :
    checkRebellionChance ⟨10, 50, 50, 50, 50, 70, 0, 0⟩ = ⟨true, some 35⟩ ∧
    (35 : Int) ≠ max 10 (40 - 10) := by
  exact ⟨by decide, by decide⟩

/-- C3 (amended): for every in-range vector, the chaos/stability trigger
reports intensity `clamp(round((chaos + (50 - stability)) / 2), 0, 100)`;
the approval trigger applies only when the chaos/stability trigger does
not fire, reporting `max 10 (40 - approval)`; with neither condition the
result is inactive. -/
theorem checkRebellionChance_branches (v : StatVector) (hv : InRange v) :
    (65 < v.chaos ∨ v.stability < 20 →
      checkRebellionChance v =
        ⟨true, some (max 0 (min 100 (jsRoundHalf (v.chaos + (50 - v.stability)))))⟩) ∧
    (¬(65 < v.chaos ∨ v.stability < 20) → v.approval < 15 →
      checkRebellionChance v = ⟨true, some (max 10 (40 - v.approval))⟩) ∧
    (¬(65 < v.chaos ∨ v.stability < 20) → ¬(v.approval < 15) →
      checkRebellionChance v = ⟨false, none⟩) := by
  obtain ⟨ha0, ha1, hs0, hs1, he0, he1, hj0, hj1, hp0, hp1, hc, hl, hcr⟩ := hv
  refine ⟨?_, ?_, ?_⟩
  · intro h
    unfold checkRebellionChance
    rw [if_pos h]
    have hk : (0 : Int) ≤ v.chaos + (50 - v.stability) + 1 := by
      rcases h with h | h <;> omega
    have hr : (0 : Int) ≤ jsRoundHalf (v.chaos + (50 - v.stability)) := by
      unfold jsRoundHalf
      exact Int.fdiv_nonneg hk (by norm_num)
    rw [max_eq_right (le_min (by norm_num) hr)]
  · intro h1 h2
    unfold checkRebellionChance
    rw [if_neg h1, if_pos h2]
  · intro h1 h2
    unfold checkRebellionChance
    rw [if_neg h1, if_neg h2]

/-- C3 (amended) witness: stability 15 fires the chaos/stability branch of
an otherwise-default vector, with clamped intensity
`clamp(round((0 + 35) / 2), 0, 100) = 18`. -/
theorem checkRebellionChance_branches_witness :
    checkRebellionChance ⟨50, 15, 50, 50, 50, 0, 0, 0⟩ =
      ⟨true, some (max 0 (min 100 (jsRoundHalf (0 + (50 - 15)))))⟩ :=
  (checkRebellionChance_branches ⟨50, 15, 50, 50, 50, 0, 0, 0⟩ (by decide)).1
    (Or.inr (by decide))

/-- C4 counterexample: a stats row with approval 200 (outside [0,100]) is
not rejected by the law-enforcement step: the result is a normal `ok`
update in which the corrupt approval has been silently clamped to 100 and
the other axes mutated by the `tax_cut` delta — not an error, and not the
unchanged session state. -/
theorem invalidState_not_rejected_cex :
    ¬ InRange (⟨200, 50, 50, 50, 50, 0, 0, 0⟩ : StatVector) ∧
    lawsEnforce (some ⟨200, 50, 50, 50, 50, 0, 0, 0⟩) "tax_cut" =
      .ok (⟨100, 48, 58, 50, 50, 0, 1, 0⟩ : StatVector) ∧
    (⟨100, 48, 58, 50, 50, 0, 1, 0⟩ : StatVector) ≠ ⟨200, 50, 50, 50, 50, 0, 0, 0⟩ := by
  refine ⟨by decide, by rfl, by decide⟩

/-- C4 (amended): the core performs no input validation: for every stats
row with a field outside its documented range, the law-enforcement step
still returns a successful update (the only error path is a missing
session row), and a corrupt value on an axis absent from the delta is
carried into the stored result unchanged — neither rejected nor fixed. -/
theorem lawsEnforce_no_validation (s : StatVector) (k : String) (_h : ¬ InRange s) :
    (∃ t, lawsEnforce (some s) k = .ok t) ∧
    ((lawEnforceDelta k).economy = none → 100 < s.economy →
      ∃ t, lawsEnforce (some s) k = .ok t ∧ 100 < t.economy) := by
  refine ⟨⟨_, rfl⟩, ?_⟩
  intro h1 h2
  refine ⟨_, rfl, ?_⟩
  show 100 < applyBounded s.economy (lawEnforceDelta k).economy
  rw [h1]
  exact h2

/-- C4 (amended) witness: economy 200 with `emergency_rule` (whose delta
does not touch economy): the update succeeds and stores economy 200. -/
theorem lawsEnforce_no_validation_witness :
    ∃ t, lawsEnforce (some ⟨50, 50, 200, 50, 50, 0, 0, 0⟩) "emergency_rule" = .ok t ∧
      100 < t.economy :=
  (lawsEnforce_no_validation ⟨50, 50, 200, 50, 50, 0, 0, 0⟩ "emergency_rule"
    (by decide)).2 (by decide) (by decide)

/-- C5 counterexample: two `distort` cosmic acts on a fresh session insert
the `distorted_realm` achievement twice — the unconditional mythic unlock
is not guarded, so the achievement store holds a duplicate key. -/
theorem achievementKey_duplicate_cex :
    ¬ ((cosmicActStep (cosmicActStep ([], DEFAULT_STATS) "distort") "distort").1.Nodup) ∧
    (cosmicActStep (cosmicActStep ([], DEFAULT_STATS) "distort") "distort").1.count
      "distorted_realm" = 2 := by
  exact ⟨by decide, by decide⟩

/-- C5 (amended): achievements inserted by the rule-table evaluator alone
keep the store's keys unique: any sequence of `evaluateAchievements`-based
updates starting from a duplicate-free store leaves it duplicate-free; the
distort branch and the manual unlock endpoint insert unconditionally and
can break the invariant. -/
theorem evalStep_fold_nodup (l : List StatVector) (store : List String)
    (h : store.Nodup) : (l.foldl evalStep store).Nodup := by
  induction l generalizing store with
  | nil => exact h
  | cons v rest ih =>
      refine ih _ ?_
      exact h.append (evaluateAchievements_nodup store v)
        (fun a ha hmem => evaluateAchievements_not_mem_store store v a hmem ha)

/-- C5 (amended) witness: two evaluations on a high-stability,
high-economy vector from an empty store yield a duplicate-free store. -/
theorem evalStep_fold_nodup_witness :
    (List.foldl evalStep []
      [⟨50, 95, 95, 50, 50, 0, 0, 0⟩, ⟨50, 95, 95, 50, 50, 0, 0, 0⟩]).Nodup :=
  evalStep_fold_nodup [⟨50, 95, 95, 50, 50, 0, 0, 0⟩, ⟨50, 95, 95, 50, 50, 0, 0, 0⟩]
    [] (by decide)

/-- C6: the achievement evaluator is idempotent: evaluating again with the
already-unlocked keys extended by the keys of the first call returns the
empty list, and a key already in the unlocked set is never re-fired. -/
theorem evaluateAchievements_idempotent (u : List String) (v : StatVector) :
    evaluateAchievements (u ++ evaluateAchievements u v) v = [] ∧
    ∀ k, k ∈ u → k ∉ evaluateAchievements u v := by
  constructor
  · rw [List.eq_nil_iff_forall_not_mem]
    intro k hk
    rw [mem_evaluateAchievements] at hk
    obtain ⟨r, hmem, rfl, hnotin, hcond⟩ := hk
    apply hnotin
    apply List.mem_append.mpr
    right
    exact (mem_evaluateAchievements u v r.key).mpr
      ⟨r, hmem, rfl, fun hu => hnotin (List.mem_append.mpr (Or.inl hu)), hcond⟩
  · intro k hk hmem
    exact evaluateAchievements_not_mem_store u v k hmem hk

/-- C6 witness: with `stable_mandate` already unlocked on a vector with
stability 95 and economy 95, the first call fires only `economic_wizard`;
a second call on the extended set fires nothing, and the already-unlocked
key is not re-fired. -/
theorem evaluateAchievements_idempotent_witness :
    evaluateAchievements
      (["stable_mandate"] ++
        evaluateAchievements ["stable_mandate"] ⟨50, 95, 95, 50, 50, 0, 0, 0⟩)
      ⟨50, 95, 95, 50, 50, 0, 0, 0⟩ = [] ∧
    "stable_mandate" ∉
      evaluateAchievements ["stable_mandate"] ⟨50, 95, 95, 50, 50, 0, 0, 0⟩ :=
  ⟨(evaluateAchievements_idempotent ["stable_mandate"] ⟨50, 95, 95, 50, 50, 0, 0, 0⟩).1,
   (evaluateAchievements_idempotent ["stable_mandate"] ⟨50, 95, 95, 50, 50, 0, 0, 0⟩).2
     "stable_mandate" (by decide)⟩

/-- C7: an action key missing from its category's table never raises an
error: every handler substitutes its fixed fallback delta — `approval: 0`
(plus the `laws: 1` counter) for laws, `approval: -2` merged with the
method modifier (plus `crises: 1`) for crises, `approval: 0` for diplomacy
and rebellion, and `chaos: +5` for cosmic acts. -/
theorem unknownKey_fallback (k m : String) :
    (LAW_DELTAS.lookup k = none →
      lawEnforceDelta k = ⟨some 0, none, none, none, none, none, some 1, none⟩) ∧
    (CRISIS_DELTAS.lookup k = none →
      crisisResolveDelta k m =
        ⟨(mergeDelta crisisFallback (methodMod m)).approval,
         (mergeDelta crisisFallback (methodMod m)).stability,
         (mergeDelta crisisFallback (methodMod m)).economy,
         (mergeDelta crisisFallback (methodMod m)).justice,
         (mergeDelta crisisFallback (methodMod m)).power,
         (mergeDelta crisisFallback (methodMod m)).chaos,
         (mergeDelta crisisFallback (methodMod m)).laws, some 1⟩) ∧
    (DIPLOMACY_DELTAS.lookup k = none → diplomacyDelta k = approvalZeroFallback) ∧
    (REBELLION_DELTAS.lookup k = none → rebellionDelta k = approvalZeroFallback) ∧
    (COSMIC_DELTAS.lookup k = none → cosmicDelta k = cosmicFallback) := by
  refine ⟨?_, ?_, ?_, ?_, ?_⟩
  · intro hLaw
    unfold lawEnforceDelta
    rw [hLaw]
    rfl
  · intro hCr
    unfold crisisResolveDelta
    rw [hCr]
    rfl
  · intro hDip
    unfold diplomacyDelta
    rw [hDip]
    rfl
  · intro hReb
    unfold rebellionDelta
    rw [hReb]
    rfl
  · intro hCos
    unfold cosmicDelta
    rw [hCos]
    rfl

/-- C7 witness: `pandemic` is a crisis key but absent from the laws,
diplomacy, rebellion and cosmic tables, and `tax_cut` is a law key absent
from the crisis table; each category falls back to its own fixed delta
(crisis shown with the `bold` method modifier merged onto the
`approval: -2` fallback). -/
theorem unknownKey_fallback_witness :
    lawEnforceDelta "pandemic" =
      ⟨some 0, none, none, none, none, none, some 1, none⟩ ∧
    crisisResolveDelta "tax_cut" "bold" =
      ⟨(mergeDelta crisisFallback (methodMod "bold")).approval,
       (mergeDelta crisisFallback (methodMod "bold")).stability,
       (mergeDelta crisisFallback (methodMod "bold")).economy,
       (mergeDelta crisisFallback (methodMod "bold")).justice,
       (mergeDelta crisisFallback (methodMod "bold")).power,
       (mergeDelta crisisFallback (methodMod "bold")).chaos,
       (mergeDelta crisisFallback (methodMod "bold")).laws, some 1⟩ ∧
    diplomacyDelta "pandemic" = approvalZeroFallback ∧
    rebellionDelta "pandemic" = approvalZeroFallback ∧
    cosmicDelta "pandemic" = cosmicFallback :=
  ⟨(unknownKey_fallback "pandemic" "bold").1 (by decide),
   (unknownKey_fallback "tax_cut" "bold").2.1 (by decide),
   (unknownKey_fallback "pandemic" "bold").2.2.1 (by decide),
   (unknownKey_fallback "pandemic" "bold").2.2.2.1 (by decide),
   (unknownKey_fallback "pandemic" "bold").2.2.2.2 (by decide)⟩

/-- C9: the archive encoder is deterministic: with the external deflate
step fixed (any function of the JSON string), structurally identical
payloads — equal values of the `Json` model — produce the identical glyph
string, however many times the encoder is called. -/
theorem compressToGlyphs_deterministic (deflate : String → List UInt8)
    (p q : Json) (h : p = q) :
    compressToGlyphs deflate p = compressToGlyphs deflate q := by
  rw [h]

/-- C9 witness: encoding the sample payload twice under the stub byte
function yields the identical glyph string. -/
theorem compressToGlyphs_deterministic_witness :
    compressToGlyphs deflateStub samplePayload =
      compressToGlyphs deflateStub samplePayload :=
  compressToGlyphs_deterministic deflateStub samplePayload samplePayload rfl

end PresidentSim
